import Mathlib

/-
  Verification of the NanoBoyAdvance audio subsystem excerpt:
  the noise channel (channel_noise.cpp) and the APU mixer frame (apu.cpp).

  Machine integers are modelled as Nat (unsigned fields, LFSR) and Int
  (signed sample amplitudes, envelope volume, scheduler delays); float
  samples are modelled as rationals.
-/

set_option maxRecDepth 8192

namespace NBA

/-- Envelope direction. Modelled from the spec: the Envelope sub-unit of the
Sequencer (declared in a header that is not among the provided sources) has a
direction in \x7bIncrement, Decrement\x7d; the register encoding (offset-1
bit 3) uses 0 = Decrement and 1 = Increment, matching the hardware register
layout and the read-back formula direction << 3. -/
inductive Direction where
| Decrement
| Increment
deriving DecidableEq

/-- Numeric value of the direction as used by the register read-back. -/
def Direction.toNat : Direction → Nat
| .Decrement => 0
| .Increment => 1

/-- Decode a register bit (already masked to one bit) into a direction,
as the C++ enum cast Direction((value >> 3) & 1) does. -/
def Direction.ofBit (b : Nat) : Direction :=
if b = 1 then .Increment else .Decrement

/-- Modelled from the spec: the envelope unit state (its struct declaration is
not among the provided sources): divider (0-7), direction, initial_volume
(0-15), current_volume (a C int; masking it with 15 is a two's-complement
bit-and, i.e. the nonnegative residue mod 16), and the enabled/active flags. -/
structure Envelope where
  enabled : Bool
  active : Bool
  direction : Direction
  divider : Nat
  initial_volume : Nat
  current_volume : Int
deriving DecidableEq

/-- Modelled from the spec: the per-channel Sequencer composite; only the
fields the noise channel reads or writes are embedded (the length counter and
the envelope unit). -/
structure Sequencer where
  length : Int
  envelope : Envelope
deriving DecidableEq

/-- Modelled from the spec: Sequencer::Restart (its definition is not among
the provided sources) reloads length to its maximum (64 for the noise
channel) if it is currently zero, reloads current_volume from initial_volume
and marks the envelope active. -/
def Sequencer.Restart (s : Sequencer) : Sequencer :=
{ s with
  length := if s.length = 0 then 64 else s.length,
  envelope := { s.envelope with
    active := true,
    current_volume := (s.envelope.initial_volume : Int) } }

/-- State of NoiseChannel (channel_noise.cpp). skip_count is a C int but is
only ever assigned 0 or a positive quotient minus one, so Nat is faithful. -/
structure NoiseChannel where
  sequencer : Sequencer
  frequency_shift : Nat
  frequency_ratio : Nat
  width : Nat
  length_enable : Bool
  dac_enable : Bool
  enabled : Bool
  lfsr : Nat
  sample : Int
  skip_count : Nat
deriving DecidableEq

/-- Modelled from the spec: the divisor table used by GetSynthesisInterval. -/
def divisor_table : List Nat := [8, 16, 32, 48, 64, 80, 96, 112]

/-- Modelled from the spec: NoiseChannel::GetSynthesisInterval (declared in
channel_noise.hpp, which is not among the provided sources) returns
divisor_table[ratio] << shift. Every table entry is positive, so the result
is always positive. -/
def GetSynthesisInterval (ratio shift : Nat) : Nat :=
(divisor_table.getD ratio 8) <<< shift

/-- The lfsr_xor table of NoiseChannel::Generate: 0x6000 for width 0 (15-bit
mode), 0x60 for width 1 (7-bit mode). -/
def lfsr_xor (width : Nat) : Nat :=
if width = 0 then 0x6000 else 0x60

/-- The lfsr_init table of NoiseChannel::Write case 5: 0x4000 for width 0,
0x0040 for width 1. -/
def lfsr_init (width : Nat) : Nat :=
if width = 0 then 0x4000 else 0x0040

/-- One raw LFSR shift/XOR step: the body of the skip loop in
NoiseChannel::Generate (and, disregarding the sample assignment, the visible
generation step as well). -/
def lfsrStep (width lfsr : Nat) : Nat :=
if lfsr &&& 1 = 1 then (lfsr >>> 1) ^^^ lfsr_xor width else lfsr >>> 1

/-- Result of one firing of NoiseChannel::Generate: the updated channel state
plus the delay passed to scheduler.Add when the event re-arms itself. -/
structure GenerateResult where
  chan : NoiseChannel
  delay : Int
deriving DecidableEq

/-- NoiseChannel::Generate (channel_noise.cpp lines 37-89). mixer_interval
stands for the value returned by bias.GetSampleInterval(); the BIAS
collaborator is not among the provided sources, so the interval is taken as a
parameter. -/
def NoiseChannel.Generate (ch : NoiseChannel) (mixer_interval : Nat)
    (cycles_late : Int) : GenerateResult :=
if ch.length_enable ∧ ch.sequencer.length ≤ 0 then
  { chan := { ch with enabled := false, sample := 0 },
    delay := (GetSynthesisInterval 7 15 : Int) - cycles_late }
else
  let carry := ch.lfsr &&& 1
  let lfsr1 := ch.lfsr >>> 1
  let lfsr2 := if carry = 1 then lfsr1 ^^^ lfsr_xor ch.width else lfsr1
  let sample0 : Int := if carry = 1 then 8 else -8
  let sample1 := sample0 * ch.sequencer.envelope.current_volume
  let sample2 := if ch.dac_enable then sample1 else 0
  let lfsr3 := (lfsrStep ch.width)^[ch.skip_count] lfsr2
  let noise_interval := GetSynthesisInterval ch.frequency_ratio ch.frequency_shift
  if noise_interval < mixer_interval then
    { chan := { ch with lfsr := lfsr3, sample := sample2,
                        skip_count := mixer_interval / noise_interval - 1 },
      delay := (mixer_interval : Int) - cycles_late }
  else
    { chan := { ch with lfsr := lfsr3, sample := sample2, skip_count := 0 },
      delay := (noise_interval : Int) - cycles_late }

/-- NoiseChannel::Read (channel_noise.cpp lines 91-117). The C++ function
only returns a byte and never assigns to any member, which the embedding
renders as a pure function of the channel returning just the value. -/
def NoiseChannel.Read (ch : NoiseChannel) (offset : Int) : Nat :=
if offset = 0 then 0
else if offset = 1 then
  ch.sequencer.envelope.divider |||
    (ch.sequencer.envelope.direction.toNat <<< 3) |||
    (ch.sequencer.envelope.initial_volume <<< 4)
else if offset = 2 ∨ offset = 3 then 0
else if offset = 4 then
  ch.frequency_ratio ||| (ch.width <<< 3) ||| (ch.frequency_shift <<< 4)
else if offset = 5 then
  (if ch.length_enable then 0x40 else 0)
else 0

/-- NoiseChannel::Write (channel_noise.cpp lines 119-177). value is the
written byte (0-255). -/
def NoiseChannel.Write (ch : NoiseChannel) (offset : Int) (value : Nat) :
    NoiseChannel :=
if offset = 0 then
  { ch with sequencer :=
    { ch.sequencer with length := 64 - ((value &&& 63 : Nat) : Int) } }
else if offset = 1 then
  let env := ch.sequencer.envelope
  let divider_old := env.divider
  let direction_old := env.direction
  let env1 := { env with
    divider := value &&& 7,
    direction := Direction.ofBit ((value >>> 3) &&& 1),
    initial_volume := value >>> 4 }
  let dac : Bool := value >>> 3 != 0
  let cv0 := env.current_volume
  let cv1 := if divider_old = 0 ∧ env1.active then cv0 + 1
             else if direction_old = Direction.Decrement then cv0 + 2
             else cv0
  let cv2 := if direction_old ≠ env1.direction then 16 - cv1 else cv1
  { ch with
    sequencer := { ch.sequencer with
      envelope := { env1 with current_volume := cv2 % 16 } },
    dac_enable := dac,
    enabled := if dac then ch.enabled else false }
else if offset = 4 then
  { ch with
    frequency_ratio := value &&& 7,
    width := (value >>> 3) &&& 1,
    frequency_shift := value >>> 4 }
else if offset = 5 then
  let ch1 := { ch with length_enable := value &&& 0x40 != 0 }
  if value &&& 0x80 != 0 then
    { ch1 with
      enabled := if ch1.dac_enable then true else ch1.enabled,
      sequencer := ch1.sequencer.Restart,
      lfsr := lfsr_init ch1.width }
  else ch1
else ch

/-- Modelled from the spec: one finished stereo frame; the float samples of
the pipeline are modelled as rationals. -/
structure StereoFrame where
  left : ℚ
  right : ℚ
deriving DecidableEq

instance : Inhabited StereoFrame := ⟨⟨0, 0⟩⟩

/-- C library rounding (std::round): round half away from zero. -/
def roundAway (q : ℚ) : Int :=
if 0 ≤ q then ⌊q + 1 / 2⌋ else -⌊-q + 1 / 2⌋

/-- Conversion of one frame to the host signed-16-bit format, as AudioCallback
does per frame: multiply by 32767.0, std::round each side, cast to int16 (the
cast is the identity for in-range samples and is not re-modelled). -/
def toHost (f : StereoFrame) : Int × Int :=
(roundAway (f.left * 32767), roundAway (f.right * 32767))

/-- Modelled from the spec: the StereoRingBuffer collaborator (its sources are
not among the provided files), viewed from the host callback. The buffer is
the list of pending frames, front first; Available() is the number of
buffered frames. -/
def Available (buf : List StereoFrame) : Nat := buf.length

/-- Modelled from the spec: Peek(i) returns the i-th buffered frame without
consuming it. -/
def Peek (buf : List StereoFrame) (i : Nat) : StereoFrame := buf.getD i default

/-- AudioCallback (apu.cpp lines 29-56). samples = byte_len/sizeof(int16)/2
stereo frames are produced. If available >= 2*samples the callback drains
samples frames with Read(); otherwise it peeks the available frames
cyclically (index x mod available; when available = 0 the C++ index never
wraps, matching x mod 0 = x) without consuming anything. Returns the host
output stream and the buffer contents left after the call. -/
def AudioCallback (buf : List StereoFrame) (byte_len : Nat) :
    List (Int × Int) × List StereoFrame :=
let samples := byte_len / 2 / 2
let available := Available buf
if available ≥ 2 * samples then
  ((buf.take samples).map toHost, buf.drop samples)
else
  ((List.range samples).map (fun x => toHost (Peek buf (x % available))), buf)

/-- APU state relevant to APU::Tick: the two FIFO latches, the samples of the
three PSG channels the mixer sums (psg4 is commented out in this source), the
bias resolution, the cached resolution_old, the event countdown, and the
sequence of frames written to the resampler. -/
structure APUState where
  latch0 : Int
  latch1 : Int
  psg1_sample : Int
  psg2_sample : Int
  psg3_sample : Int
  resolution : Nat
  resolution_old : Nat
  countdown : Int
  resampler_in : List StereoFrame
deriving DecidableEq

/-- APU::Tick (apu.cpp lines 102-113). On a resolution change the resampler is
reconfigured (an effect on the external resampler collaborator; the state
update is to resolution_old); then the mixed stereo frame is written to the
resampler and the countdown advances by 512 >> resolution. -/
def APU.Tick (s : APUState) : APUState :=
let s1 := if s.resolution ≠ s.resolution_old
          then { s with resolution_old := s.resolution } else s
let psg_sum : Int := s.psg1_sample + s.psg2_sample + s.psg3_sample
let frame : StereoFrame :=
  ⟨(s.latch0 : ℚ) / 256 + (psg_sum : ℚ) / 512,
   (s.latch1 : ℚ) / 256 + (psg_sum : ℚ) / 512⟩
{ s1 with resampler_in := s1.resampler_in ++ [frame],
          countdown := s1.countdown + ((512 >>> s.resolution : Nat) : Int) }

/-- A concrete noise-channel state used by witnesses: length gate off, DAC on,
an odd LFSR value, envelope volume 5, two pending skip steps. -/
def ch0 : NoiseChannel :=
{ sequencer :=
  { length := 10,
    envelope :=
    { enabled := true, active := true, direction := .Decrement,
      divider := 0, initial_volume := 5, current_volume := 5 } },
  frequency_shift := 0, frequency_ratio := 0, width := 0,
  length_enable := false, dac_enable := true, enabled := true,
  lfsr := 0x4001, sample := 0, skip_count := 2 }

/-- A concrete channel whose length gate silences it: length_enable set and
length counted down to 0. -/
def ch4 : NoiseChannel :=
{ ch0 with length_enable := true,
           sequencer := { ch0.sequencer with length := 0 } }

/-- The zombie-mode scenario of the spec: current_volume = 5, direction
Decrement, divider 0, envelope active. -/
def zch : NoiseChannel :=
{ ch0 with sequencer :=
  { ch0.sequencer with envelope :=
    { ch0.sequencer.envelope with
      active := true, direction := .Decrement, divider := 0,
      current_volume := 5 } } }

/-- A one-frame buffer used for the C2 counterexample and witness. -/
def buf1 : List StereoFrame := [⟨1, 1⟩]

/-- A concrete APU state: both latches 0, psg1 emitting +40, others 0. -/
def apu40 : APUState :=
{ latch0 := 0, latch1 := 0,
  psg1_sample := 40, psg2_sample := 0, psg3_sample := 0,
  resolution := 0, resolution_old := 0, countdown := 0, resampler_in := [] }

/-- States, per the words of the spec (section 4.3a), the zombie-mode volume
adjustment applied on an offset-1 write, from the pre-write divider and
direction, the envelope active flag, the newly decoded direction, and the
pre-write current_volume. Used to compare the spec formula against
NoiseChannel::Write. -/
def zombieSpecVolume (divider_old : Nat) (direction_old : Direction)
    (active : Bool) (direction_new : Direction) (cv : Int) : Int :=
let cv1 := if divider_old = 0 ∧ active then cv + 1
           else if direction_old = Direction.Decrement then cv + 2
           else cv
let cv2 := if direction_old ≠ direction_new then 16 - cv1 else cv1
cv2 % 16

/-- Helper: recombining the three offset-1 bit fields of a byte restores the
byte. -/
theorem bits_roundtrip : ∀ b, b < 256 →
    (b &&& 7) ||| (((b >>> 3) &&& 1) <<< 3) ||| ((b >>> 4) <<< 4) = b := by
  decide

/-- C4: whenever length_enable is true and sequencer.length is at most 0 when
a generation event fires, Generate sets enabled to false and sample to 0,
leaves the LFSR unstepped, and re-arms the event after
GetSynthesisInterval(7, 15) - cycles_late cycles. -/
theorem C4_length_gate_mutes (ch : NoiseChannel) (mixer_interval : Nat)
    (cycles_late : Int) (h : ch.length_enable ∧ ch.sequencer.length ≤ 0) :
    (ch.Generate mixer_interval cycles_late).chan.enabled = false ∧
    (ch.Generate mixer_interval cycles_late).chan.sample = 0 ∧
    (ch.Generate mixer_interval cycles_late).chan.lfsr = ch.lfsr ∧
    (ch.Generate mixer_interval cycles_late).delay =
      (GetSynthesisInterval 7 15 : Int) - cycles_late := by
  unfold NoiseChannel.Generate
  rw [if_pos h]
  exact ⟨rfl, rfl, rfl, rfl⟩

/-- Witness for C4 at the concrete silenced channel ch4. -/
theorem C4_witness :
    (ch4.length_enable ∧ ch4.sequencer.length ≤ 0) ∧
    (ch4.Generate 512 0).chan.enabled = false ∧
    (ch4.Generate 512 0).chan.sample = 0 ∧
    (ch4.Generate 512 0).chan.lfsr = ch4.lfsr ∧
    (ch4.Generate 512 0).delay = (GetSynthesisInterval 7 15 : Int) - 0 :=
⟨by decide, C4_length_gate_mutes ch4 512 0 (by decide)⟩

/-- C9: after any byte write to offset 1, all zombie-mode adjustments
included, current_volume lies in [0, 15] (the final bit-and with 15 is the
nonnegative residue mod 16). -/
theorem C9_volume_in_range (ch : NoiseChannel) (value : Nat) :
    0 ≤ (ch.Write 1 value).sequencer.envelope.current_volume ∧
    (ch.Write 1 value).sequencer.envelope.current_volume ≤ 15 := by
  obtain ⟨x, hx⟩ :
      ∃ x : Int, (ch.Write 1 value).sequencer.envelope.current_volume = x % 16 :=
    ⟨_, rfl⟩
  rw [hx]
  have h1 : 0 ≤ x % 16 := Int.emod_nonneg x (by norm_num)
  have h2 : x % 16 < 16 := Int.emod_lt_of_pos x (by norm_num)
  omega

/-- C10: NoiseChannel::Read computes a value from the channel state alone and
performs no mutation (it is embedded as a pure function of the channel); at
every offset other than 1, 4 and 5 — in particular 0, 2 and 3 — it returns 0. -/
theorem C10_read_pure_defaults (ch : NoiseChannel) (offset : Int)
    (h1 : offset ≠ 1) (h4 : offset ≠ 4) (h5 : offset ≠ 5) :
    ch.Read offset = 0 := by
  unfold NoiseChannel.Read
  simp [h1, h4, h5]

/-- Witness for C10 at offset 0. -/
theorem C10_witness :
    (0 : Int) ≠ 1 ∧ (0 : Int) ≠ 4 ∧ (0 : Int) ≠ 5 ∧ ch0.Read 0 = 0 :=
⟨by decide, by decide, by decide,
  C10_read_pure_defaults ch0 0 (by decide) (by decide) (by decide)⟩

/-- C3: a write to offset 1 updates current_volume exactly by the zombie-mode
rule stated in the spec, computed from the pre-write divider, direction and
volume, the envelope active flag and the newly decoded direction; in
particular, from current_volume 5, direction Decrement, divider 0, envelope
active, a write of 0x50 (divider 0, direction unchanged) yields 6. -/
theorem C3_zombie_mode (ch : NoiseChannel) (value : Nat) :
    ((ch.Write 1 value).sequencer.envelope.current_volume =
      zombieSpecVolume ch.sequencer.envelope.divider
        ch.sequencer.envelope.direction ch.sequencer.envelope.active
        (Direction.ofBit ((value >>> 3) &&& 1))
        ch.sequencer.envelope.current_volume) ∧
    (zch.Write 1 0x50).sequencer.envelope.current_volume = 6 :=
⟨rfl, by decide⟩

/-- C5: writing a byte with bit 7 set to offset 5 reseeds the LFSR to the
width-selected seed (0x4000 for width 0, 0x0040 for width 1) and restarts the
sequencer regardless of dac_enable; enabled becomes true when dac_enable
holds and is otherwise unchanged. -/
theorem C5_trigger (ch : NoiseChannel) (v : Nat) (h : v &&& 0x80 ≠ 0) :
    (ch.Write 5 v).lfsr = (if ch.width = 0 then 0x4000 else 0x0040) ∧
    (ch.Write 5 v).sequencer = ch.sequencer.Restart ∧
    (ch.Write 5 v).enabled = (if ch.dac_enable then true else ch.enabled) := by
  have hb : (v &&& 0x80 != 0) = true := by simpa using h
  unfold NoiseChannel.Write
  simp [hb, lfsr_init]

/-- Witness for C5: triggering ch0 with value 0x80. -/
theorem C5_witness :
    (0x80 : Nat) &&& 0x80 ≠ 0 ∧
    (ch0.Write 5 0x80).lfsr = (if ch0.width = 0 then 0x4000 else 0x0040) ∧
    (ch0.Write 5 0x80).sequencer = ch0.sequencer.Restart ∧
    (ch0.Write 5 0x80).enabled = (if ch0.dac_enable then true else ch0.enabled) :=
⟨by decide, C5_trigger ch0 0x80 (by decide)⟩

/-- C1: for a firing of Generate not silenced by the length gate, with
noise_interval = GetSynthesisInterval(frequency_ratio, frequency_shift) and
mixer_interval the bias sample interval: when noise_interval < mixer_interval
the new skip_count is mixer_interval/noise_interval - 1 and the event re-arms
after mixer_interval - cycles_late; otherwise skip_count becomes 0 and the
event re-arms after noise_interval - cycles_late. The LFSR advances exactly
s + 1 raw steps, s being skip_count on entry. -/
theorem C1_generate_rate_match (ch : NoiseChannel) (mixer_interval : Nat)
    (cycles_late : Int) (h : ¬(ch.length_enable ∧ ch.sequencer.length ≤ 0)) :
    (GetSynthesisInterval ch.frequency_ratio ch.frequency_shift < mixer_interval →
      (ch.Generate mixer_interval cycles_late).chan.skip_count =
        mixer_interval / GetSynthesisInterval ch.frequency_ratio ch.frequency_shift - 1 ∧
      (ch.Generate mixer_interval cycles_late).delay =
        (mixer_interval : Int) - cycles_late) ∧
    (¬ GetSynthesisInterval ch.frequency_ratio ch.frequency_shift < mixer_interval →
      (ch.Generate mixer_interval cycles_late).chan.skip_count = 0 ∧
      (ch.Generate mixer_interval cycles_late).delay =
        (GetSynthesisInterval ch.frequency_ratio ch.frequency_shift : Int) - cycles_late) ∧
    (ch.Generate mixer_interval cycles_late).chan.lfsr =
      (lfsrStep ch.width)^[ch.skip_count + 1] ch.lfsr := by
  unfold NoiseChannel.Generate
  rw [if_neg h]
  dsimp only
  rw [Function.iterate_succ_apply]
  by_cases hlt :
      GetSynthesisInterval ch.frequency_ratio ch.frequency_shift < mixer_interval
  · rw [if_pos hlt]
    exact ⟨fun _ => ⟨rfl, rfl⟩, fun hn => absurd hlt hn, rfl⟩
  · rw [if_neg hlt]
    exact ⟨fun hl => absurd hl hlt, fun _ => ⟨rfl, rfl⟩, rfl⟩

/-- Witness for C1: ch0 runs at noise_interval 8 against mixer interval 512. -/
theorem C1_witness :
    ¬(ch0.length_enable ∧ ch0.sequencer.length ≤ 0) ∧
    ((GetSynthesisInterval ch0.frequency_ratio ch0.frequency_shift < 512 →
      (ch0.Generate 512 0).chan.skip_count =
        512 / GetSynthesisInterval ch0.frequency_ratio ch0.frequency_shift - 1 ∧
      (ch0.Generate 512 0).delay = (512 : Int) - 0) ∧
    (¬ GetSynthesisInterval ch0.frequency_ratio ch0.frequency_shift < 512 →
      (ch0.Generate 512 0).chan.skip_count = 0 ∧
      (ch0.Generate 512 0).delay =
        (GetSynthesisInterval ch0.frequency_ratio ch0.frequency_shift : Int) - 0) ∧
    (ch0.Generate 512 0).chan.lfsr =
      (lfsrStep ch0.width)^[ch0.skip_count + 1] ch0.lfsr) :=
⟨by decide, C1_generate_rate_match ch0 512 0 (by decide)⟩

/-- C8: in a firing not silenced by the length gate, the visible step
extracts bit 0 of the LFSR as the carry and shifts right by one; on carry it
XORs in the width-selected tap mask and takes raw sample +8, else -8; the
sample is scaled by current_volume and forced to 0 when the DAC is off. -/
theorem C8_sample_rule (ch : NoiseChannel) (mixer_interval : Nat)
    (cycles_late : Int) (h : ¬(ch.length_enable ∧ ch.sequencer.length ≤ 0)) :
    (ch.Generate mixer_interval cycles_late).chan.sample =
      (if ch.dac_enable then
        (if ch.lfsr &&& 1 = 1 then (8 : Int) else -8) *
          ch.sequencer.envelope.current_volume
       else 0) ∧
    (ch.Generate mixer_interval cycles_late).chan.lfsr =
      (lfsrStep ch.width)^[ch.skip_count]
        (if ch.lfsr &&& 1 = 1
         then (ch.lfsr >>> 1) ^^^ lfsr_xor ch.width
         else ch.lfsr >>> 1) := by
  unfold NoiseChannel.Generate
  rw [if_neg h]
  dsimp only
  by_cases hlt :
      GetSynthesisInterval ch.frequency_ratio ch.frequency_shift < mixer_interval
  · rw [if_pos hlt]
    exact ⟨rfl, rfl⟩
  · rw [if_neg hlt]
    exact ⟨rfl, rfl⟩

/-- Witness for C8: ch0 has an odd LFSR, DAC on and volume 5, so the visible
sample is +40. -/
theorem C8_witness :
    ¬(ch0.length_enable ∧ ch0.sequencer.length ≤ 0) ∧
    (ch0.Generate 512 0).chan.sample =
      (if ch0.dac_enable then
        (if ch0.lfsr &&& 1 = 1 then (8 : Int) else -8) *
          ch0.sequencer.envelope.current_volume
       else 0) ∧
    (ch0.Generate 512 0).chan.lfsr =
      (lfsrStep ch0.width)^[ch0.skip_count]
        (if ch0.lfsr &&& 1 = 1
         then (ch0.lfsr >>> 1) ^^^ lfsr_xor ch0.width
         else ch0.lfsr >>> 1) :=
⟨by decide, C8_sample_rule ch0 512 0 (by decide)⟩

/-- C7: writing any byte b to offset 1 and reading offset 1 back returns
exactly b, recombined from the decoded envelope fields alone. -/
theorem C7_read_back_roundtrip (ch : NoiseChannel) (b : Nat) (hb : b < 256) :
    (ch.Write 1 b).Read 1 = b := by
  have hx : (b >>> 3) &&& 1 = 0 ∨ (b >>> 3) &&& 1 = 1 := by
    have h2 : (b >>> 3) &&& 1 = (b >>> 3) % 2 := Nat.and_one_is_mod _
    omega
  have key := bits_roundtrip b hb
  have hread : (ch.Write 1 b).Read 1 =
      (b &&& 7) ||| ((Direction.ofBit ((b >>> 3) &&& 1)).toNat <<< 3) |||
        ((b >>> 4) <<< 4) := rfl
  rcases hx with hx | hx <;> rw [hread, hx] <;> rw [hx] at key <;>
    simpa [Direction.ofBit, Direction.toNat] using key

/-- Witness for C7 at byte 0xA7. -/
theorem C7_witness : (0xA7 : Nat) < 256 ∧ (ch0.Write 1 0xA7).Read 1 = 0xA7 :=
⟨by decide, C7_read_back_roundtrip ch0 0xA7 (by decide)⟩

/-- C6: every APU::Tick writes to the resampler the frame
(latch0/256 + S/512, latch1/256 + S/512), S being the sum of the tone-channel
samples, and advances the countdown by 512 >> resolution; in particular, with
both latches 0 and one channel at +40, the frame is (40/512, 40/512). -/
theorem C6_tick_mix (s : APUState) :
    ((APU.Tick s).resampler_in = s.resampler_in ++
      [⟨(s.latch0 : ℚ) / 256 +
          ((s.psg1_sample + s.psg2_sample + s.psg3_sample : Int) : ℚ) / 512,
        (s.latch1 : ℚ) / 256 +
          ((s.psg1_sample + s.psg2_sample + s.psg3_sample : Int) : ℚ) / 512⟩] ∧
     (APU.Tick s).countdown = s.countdown + ((512 >>> s.resolution : Nat) : Int)) ∧
    (APU.Tick apu40).resampler_in = [⟨40 / 512, 40 / 512⟩] := by
  constructor
  · unfold APU.Tick
    dsimp only
    by_cases hc : s.resolution = s.resolution_old
    · rw [if_neg (by simpa using hc)]
      exact ⟨rfl, rfl⟩
    · rw [if_pos hc]
      exact ⟨rfl, rfl⟩
  · show ([] : List StereoFrame) ++
        [⟨(0 : ℚ) / 256 + ((40 + 0 + 0 : Int) : ℚ) / 512,
          (0 : ℚ) / 256 + ((40 + 0 + 0 : Int) : ℚ) / 512⟩] = [⟨40 / 512, 40 / 512⟩]
    norm_num

/-- C2 counterexample: with N = 1 frame requested (byte_len = 4) and exactly
1 ≥ N frame buffered, the callback consumes nothing (it takes the Peek path,
since the drain branch requires available ≥ 2N), contradicting the claim that
holding at least N frames makes it consume exactly N. -/
theorem C2_counterexample :
    1 ≤ Available buf1 ∧ (AudioCallback buf1 4).2 = buf1 ∧
    (AudioCallback buf1 4).2 ≠ List.drop 1 buf1 :=
⟨by decide, rfl, by decide⟩

/-- C2 amended: with N = byte_len/2/2 requested frames, the callback always
emits exactly N output frames; when at least 2N frames are buffered it drains
and converts the first N; otherwise, with K buffered frames, it emits the
conversions of Peek(x mod K) for x < N, consuming nothing. -/
theorem C2_callback_underrun (buf : List StereoFrame) (byte_len : Nat) :
    (AudioCallback buf byte_len).1.length = byte_len / 2 / 2 ∧
    (Available buf ≥ 2 * (byte_len / 2 / 2) →
      (AudioCallback buf byte_len).1 = (buf.take (byte_len / 2 / 2)).map toHost ∧
      (AudioCallback buf byte_len).2 = buf.drop (byte_len / 2 / 2)) ∧
    (Available buf < 2 * (byte_len / 2 / 2) →
      (AudioCallback buf byte_len).1 =
        (List.range (byte_len / 2 / 2)).map
          (fun x => toHost (Peek buf (x % Available buf))) ∧
      (AudioCallback buf byte_len).2 = buf) := by
  by_cases hc : Available buf ≥ 2 * (byte_len / 2 / 2)
  · unfold AudioCallback
    rw [if_pos hc]
    refine ⟨?_, fun _ => ⟨rfl, rfl⟩, fun hlt => absurd hc (not_le.mpr hlt)⟩
    have hlen : buf.length = Available buf := rfl
    simp only [List.length_map, List.length_take]
    omega
  · unfold AudioCallback
    rw [if_neg hc]
    refine ⟨?_, fun hge => absurd hge hc, fun _ => ⟨rfl, rfl⟩⟩
    simp

/-- Witness for C2 (amended): two frames requested against a one-frame
buffer. -/
theorem C2_witness :
    (AudioCallback buf1 8).1.length = 2 ∧ Available buf1 < 2 * 2 ∧
    (AudioCallback buf1 8).2 = buf1 :=
⟨(C2_callback_underrun buf1 8).1, by decide,
  ((C2_callback_underrun buf1 8).2.2 (by decide)).2⟩

end NBA
